import Mathlib

/-!
Verification of the restaurant-chatbot server (`src/app.js`).

This file shallowly embeds the parts of `app.js` that the specification's
claims are about:

* the data model (menu items, orders, the order store, the per-connection
  session bag);
* the `user-message` socket handler: input validation against
  `^(0|1|97|98|99|\d+(,\d+)*)$`, and the command cases
  `1` (browse), `99` (checkout), `98` (history), `97` (review),
  `0` (cancel) and the default item-selection branch;
* the `GET /payment/callback` reconciliation handler with its
  `findOneAndUpdate({paymentReference}, {status: "paid"})` update;
* the compensating `Order.deleteOne({_id: activeOrder?._id, status: "pending"})`
  in the checkout catch block.

External collaborators are modelled as pure parameters: the Paystack
`initialize` call is an oracle `GatewayInit` whose invocation is recorded as
an explicit `Event.gatewayInit` in the emitted event trace, and the
`verify` call of the callback handler is an input `VerifyResult`
(`err` covers a thrown axios error — network failure, non-2xx such as the
404 Paystack returns for an unknown reference, or a malformed body whose
field access throws; `ok s` covers a well-formed response carrying
`data.data.status = s`).  MongoDB documents are lists in insertion
(natural) order; `find` returns each matching document once, in collection
order; `findOne`/`findOneAndUpdate`/`deleteOne` operate on the first match.
-/

namespace RestaurantBot

/-- Order status enumeration from the `orderSchema`:
`enum: ["pending", "paid", "cancelled"]`. -/
inductive OrderStatus where
  | pending
  | paid
  | cancelled
deriving DecidableEq

/-- A menu catalog document (`menuItemSchema`): `_id`, name, price,
description.  `_id` values are modelled as `Nat`. -/
structure MenuItem where
  mid : Nat
  name : String
  price : Nat
  description : String
deriving DecidableEq

/-- An order line snapshot (`orderSchema.items`): menuItemId, name, price,
quantity. -/
structure OrderItem where
  menuItemId : Nat
  name : String
  price : Nat
  quantity : Nat
deriving DecidableEq

/-- An order document (`orderSchema`): `_id` (modelled as `Nat`),
sessionId, items snapshot, total, status, optional paymentReference. -/
structure Order where
  oid : Nat
  sessionId : Nat
  items : List OrderItem
  total : Nat
  status : OrderStatus
  paymentReference : Option String
deriving DecidableEq

/-- The orders collection, in insertion order, together with the `_id`
the next inserted document receives (MongoDB `_id`s are unique; freshness
of `nextOid` is stated as a hypothesis where a proof needs it). -/
structure OrderStore where
  orders : List Order
  nextOid : Nat
deriving DecidableEq

/-- The per-connection session bag: `req.session.sessionId`,
`req.session.currentOrder` (the cart, a list of menu `_id`s) and
`req.session.awaitingItemSelection`. -/
structure Session where
  sessionId : Nat
  currentOrder : List Nat
  awaitingItemSelection : Bool
deriving DecidableEq

/-- Observable output of one `user-message` turn: `socket.emit("bot-message", _)`,
`socket.emit("redirect", _)`, and (as trace instrumentation) the act of
calling the payment gateway's `initialize` with a reference and a
minor-units amount. -/
inductive Event where
  | botMessage (text : String)
  | redirect (url : String)
  | gatewayInit (reference : String) (amount : Nat)
deriving DecidableEq

/-- Result of the Paystack `initialize` POST: `ok url` is a 2xx response
carrying `data.data.authorization_url`; `err m` is any outcome the
`catch` block sees — network error, timeout, non-2xx (with the provider
message `m` when `error.response.data.message` is present) or a response
with no authorization URL (`throw new Error("Invalid Paystack response")`). -/
inductive InitResult where
  | ok (authorizationUrl : String)
  | err (providerMessage : Option String)
deriving DecidableEq

/-- The gateway `initialize` oracle: reference and minor-units amount to
outcome. -/
def GatewayInit : Type := String → Nat → InitResult

/-- Result of the Paystack `verify` GET in the callback handler: `err` is
any thrown outcome (network failure, the 404 returned for an unknown
reference, a malformed body), `ok s` a well-formed response with
`data.data.status = s`. -/
inductive VerifyResult where
  | ok (status : String)
  | err
deriving DecidableEq

/-! ## Input handling

`app.js` line 220: `const cleanedInput = input.toString().trim();`
line 223: `if (!cleanedInput.match(/^(0|1|97|98|99|\d+(,\d+)*)$/))`.

The regex alternatives `0|1|97|98|99` are each themselves matched by
`\d+(,\d+)*`, so the accepted language is exactly: one or more groups of
one or more decimal digits, separated by single commas.  The string
functions are written by structural recursion on `List Char` so that they
reduce inside kernel-checked proofs. -/

/-- JavaScript `String.prototype.trim` whitespace (the characters that can
occur in chat input). -/
def isWhitespaceChar (c : Char) : Bool :=
  c = ' ' || c = '\t' || c = '\n' || c = '\r'

/-- Strip leading and trailing whitespace from a character list. -/
def trimChars (l : List Char) : List Char :=
  ((l.dropWhile isWhitespaceChar).reverse.dropWhile isWhitespaceChar).reverse

/-- `input.toString().trim()`. -/
def trimInput (s : String) : String :=
  String.mk (trimChars s.data)

/-- Split a character list on `','`, keeping empty groups (the semantics of
`String.prototype.split(",")`). -/
def splitComma : List Char → List Char → List (List Char)
  | [], acc => [acc.reverse]
  | c :: cs, acc =>
    if c = ',' then acc.reverse :: splitComma cs [] else splitComma cs (c :: acc)

/-- One `\d+` group: nonempty and all decimal digits. -/
def isDigitGroup (g : List Char) : Bool :=
  !g.isEmpty && g.all Char.isDigit

/-- The validation regex `^(0|1|97|98|99|\d+(,\d+)*)$` of line 223:
every comma-separated group is a nonempty run of digits. -/
def matchesInputPattern (s : String) : Bool :=
  (splitComma s.data []).all isDigitGroup

/-- Decimal value of a digit run (the value `parseInt` returns on it). -/
def digitsToNat (l : List Char) : Nat :=
  l.foldl (fun n c => n * 10 + (c.toNat - 48)) 0

/-- JavaScript `parseInt` on a trimmed group, `none` for `NaN`: the value
of the leading digit run, `NaN` when there is none.  (In the selection
branch every group is a pure digit run, because the input already matched
the validation pattern.) -/
def parseIntChars (l : List Char) : Option Nat :=
  let ds := l.takeWhile Char.isDigit
  if ds.isEmpty then none else some (digitsToNat ds)

/-! ## Order store operations -/

/-- `MenuItem.find({ _id: { $in: ids } })`: each catalog document whose
`_id` occurs in `ids`, once, in collection order. -/
def findMenuByIds (menu : List MenuItem) (ids : List Nat) : List MenuItem :=
  menu.filter (fun m => decide (m.mid ∈ ids))

/-- `Order.findOne({ sessionId, status: "pending" })`: first match. -/
def findPendingOrder (st : OrderStore) (sid : Nat) : Option Order :=
  st.orders.find? (fun o => decide (o.sessionId = sid ∧ o.status = OrderStatus.pending))

/-- `activeOrder.paymentReference = reference; await activeOrder.save()`:
persist the payment reference on the document with the given `_id`. -/
def setPaymentReference (st : OrderStore) (oid : Nat) (ref : String) : OrderStore :=
  { st with
    orders := st.orders.map (fun o =>
      if o.oid = oid then { o with paymentReference := some ref } else o) }

/-- The compensating `Order.deleteOne({ _id: activeOrder?._id, status: "pending" })`
of the checkout `catch` block (lines 383-386).  When the checkout failed
before `activeOrder` was assigned, `activeOrder?._id` is `undefined`;
Mongoose strips query keys whose value is `undefined`, so the filter
degenerates to `{ status: "pending" }` and the delete removes the first
pending order of the whole collection, whatever session it belongs to. -/
def deleteOneCompensating (st : OrderStore) (oid? : Option Nat) : OrderStore :=
  match oid? with
  | some oid =>
    { st with
      orders := st.orders.eraseP (fun o =>
        decide (o.oid = oid ∧ o.status = OrderStatus.pending)) }
  | none =>
    { st with
      orders := st.orders.eraseP (fun o => decide (o.status = OrderStatus.pending)) }

/-- `Order.deleteMany({ sessionId, status: "pending" })` (cancel, case `"0"`). -/
def deleteManyPending (st : OrderStore) (sid : Nat) : OrderStore :=
  { st with
    orders := st.orders.filter (fun o =>
      !(decide (o.sessionId = sid ∧ o.status = OrderStatus.pending))) }

/-- Number of pending orders a session owns — the quantity invariant 1 of
the specification bounds by one. -/
def countPending (st : OrderStore) (sid : Nat) : Nat :=
  (st.orders.filter (fun o =>
    decide (o.sessionId = sid ∧ o.status = OrderStatus.pending))).length

/-- `Order.findOneAndUpdate({ paymentReference: reference }, { status: "paid" },
{ new: true })`: update the first document whose `paymentReference` equals
the given reference — the filter carries no status condition — setting its
status to `paid`, and return the updated document. -/
def setPaidByRef : List Order → String → Option Order × List Order
  | [], _ => (none, [])
  | o :: rest, ref =>
    if o.paymentReference = some ref then
      let o' := { o with status := OrderStatus.paid }
      (some o', o' :: rest)
    else
      let r := setPaidByRef rest ref
      (r.1, o :: r.2)

/-! ## Bot messages -/

def optionsMessage : String :=
  "Please choose an option: 1. Place new order 99. Checkout order 98. Order history 97. Current order 0. Cancel order"

def invalidInputMessage : String :=
  "Invalid input. Please use only numbers and commas."

def itemsUnavailableMessage : String :=
  "Some items are no longer available. Please create a new order."

def noOrderMessage : String := "No order to place"

def minimumAmountMessage : String := "Minimum order amount is 100"

def cancelledMessage : String := "Order cancelled successfully"

def invalidSelectionMessage : String := "Invalid item selection"

def noCurrentOrderMessage : String := "No current order"

def noHistoryMessage : String := "No order history found"

/-- `"Payment error: <provider message>"` when the gateway supplied one,
otherwise the generic failure text (lines 375-377). -/
def checkoutErrorMessage (providerMessage : Option String) : String :=
  match providerMessage with
  | some m => "Payment error: " ++ m
  | none => "Payment processing failed. Please try again."

/-- One line of the menu listing (1-based display index). -/
def menuLine (idx : Nat) (m : MenuItem) : String :=
  toString (idx + 1) ++ ". " ++ m.name ++ " - " ++ toString m.price ++ " " ++ m.description

/-- The menu listing sent by case `"1"`. -/
def menuMessage (menu : List MenuItem) : String :=
  "Menu: " ++ String.intercalate (" | ") (menu.enum.map (fun p => menuLine p.1 p.2)) ++
    " Enter item numbers separated by commas"

/-- The running-total line of the selection acknowledgement: for every
selected id, the catalog price of that id or `0` when absent
(`item?.price || 0`, line 490). -/
def selectionTotal (menu : List MenuItem) (ids : List Nat) : Nat :=
  ids.foldl (fun sum i =>
    sum + (((menu.find? (fun m => decide (m.mid = i))).map MenuItem.price).getD 0)) 0

/-- `"Added n item(s) ... Current order total: t"`. -/
def addedMessage (menu : List MenuItem) (ids : List Nat) : String :=
  "Added " ++ toString ids.length ++ " item(s) to your order! Current order total: " ++
    toString (selectionTotal menu ids)

/-- Cart display of case `"97"`. -/
def cartMessage (items : List MenuItem) : String :=
  "Current Order total: " ++ toString ((items.map MenuItem.price).sum)

/-- Pending-order display of case `"97"`. -/
def pendingOrderMessage (o : Order) : String :=
  "Current Pending Order total: " ++ toString o.total

/-- History listing of case `"98"`. -/
def historyMessage (orders : List Order) : String :=
  if orders.isEmpty then noHistoryMessage
  else "Your Order History: " ++ String.intercalate (" | ") (orders.map (fun o => toString o.total))

/-! ## The `user-message` dispatcher -/

/-- Result of one `user-message` turn: the session and order store after
the turn, and the emitted events in order. -/
structure StepResult where
  session : Session
  store : OrderStore
  events : List Event
deriving DecidableEq

/-- Case `"1"` (lines 232-264): clear the cart, list the menu (options are
not re-sent), set `awaitingItemSelection`.  (The `showMenu` helper that
would also delete the pending orders of the session is dead code: this case
inlines its own menu display and never calls it.) -/
def browseStep (menu : List MenuItem) (s : Session) (st : OrderStore) : StepResult :=
  { session := { s with currentOrder := [], awaitingItemSelection := true }
    store := st
    events := [Event.botMessage (menuMessage menu)] }

/-- Lines 316-387: the part of case `"99"` following resolution of
`activeOrder` — minimum-total gate, gateway `initialize`, persisting the
payment reference and the redirect on success, error message plus
compensating delete on failure. -/
def initiatePayment (gw : GatewayInit) (order : Order) (s : Session) (st : OrderStore) :
    StepResult :=
  if order.total < 100 then
    { session := s, store := st
      events := [Event.botMessage minimumAmountMessage, Event.botMessage optionsMessage] }
  else
    let reference := "order_" ++ toString order.oid
    match gw reference (order.total * 100) with
    | InitResult.ok url =>
      { session := s
        store := setPaymentReference st order.oid reference
        events := [Event.gatewayInit reference (order.total * 100), Event.redirect url] }
    | InitResult.err m =>
      { session := s
        store := deleteOneCompensating st (some order.oid)
        events := [Event.gatewayInit reference (order.total * 100),
                   Event.botMessage (checkoutErrorMessage m),
                   Event.botMessage optionsMessage] }

/-- Case `"99"` (lines 266-388): with a non-empty cart, fetch the
catalog documents of the cart, abort (clearing the cart) when the count of fetched
documents differs from the cart length, otherwise create a pending order
snapshotting the fetched items and clear the cart; with an empty cart,
fall back to the first existing pending order of the session; then initiate
payment. -/
def checkoutStep (menu : List MenuItem) (gw : GatewayInit) (s : Session) (st : OrderStore) :
    StepResult :=
  if s.currentOrder.length > 0 then
    let items := findMenuByIds menu s.currentOrder
    if items.length ≠ s.currentOrder.length then
      { session := { s with currentOrder := [] }
        store := st
        events := [Event.botMessage itemsUnavailableMessage, Event.botMessage optionsMessage] }
    else
      let newOrder : Order :=
        { oid := st.nextOid
          sessionId := s.sessionId
          items := items.map (fun m =>
            { menuItemId := m.mid, name := m.name, price := m.price, quantity := 1 })
          total := (items.map MenuItem.price).sum
          status := OrderStatus.pending
          paymentReference := none }
      initiatePayment gw newOrder { s with currentOrder := [] }
        { orders := st.orders ++ [newOrder], nextOid := st.nextOid + 1 }
  else
    match findPendingOrder st s.sessionId with
    | some order => initiatePayment gw order s st
    | none =>
      { session := s, store := st
        events := [Event.botMessage noOrderMessage, Event.botMessage optionsMessage] }

/-- Case `"98"` (lines 390-414): list the non-pending orders of the session;
no state is mutated. -/
def historyStep (s : Session) (st : OrderStore) : StepResult :=
  let past := st.orders.filter (fun o =>
    decide (o.sessionId = s.sessionId ∧ o.status ≠ OrderStatus.pending))
  { session := s, store := st
    events := [Event.botMessage (historyMessage past), Event.botMessage optionsMessage] }

/-- Case `"97"` (lines 416-452): with an empty cart show the
pending order if any, otherwise report none; with a non-empty cart show
the cart; no state is mutated. -/
def reviewStep (menu : List MenuItem) (s : Session) (st : OrderStore) : StepResult :=
  if s.currentOrder.length = 0 then
    match findPendingOrder st s.sessionId with
    | some o =>
      { session := s, store := st
        events := [Event.botMessage (pendingOrderMessage o), Event.botMessage optionsMessage] }
    | none =>
      { session := s, store := st
        events := [Event.botMessage noCurrentOrderMessage, Event.botMessage optionsMessage] }
  else
    { session := s, store := st
      events := [Event.botMessage (cartMessage (findMenuByIds menu s.currentOrder)),
                 Event.botMessage optionsMessage] }

/-- Case `"0"` (lines 454-463): delete the pending orders of the session, clear
the cart. -/
def cancelStep (s : Session) (st : OrderStore) : StepResult :=
  { session := { s with currentOrder := [] }
    store := deleteManyPending st s.sessionId
    events := [Event.botMessage cancelledMessage, Event.botMessage optionsMessage] }

/-- The default branch (lines 465-505): only acts when
`awaitingItemSelection` is set — parse comma-separated integers, keep the
in-range 1-based menu indices, and when at least one item survives replace
the cart with their `_id`s and clear the flag; with no surviving item
report an invalid selection; when not awaiting a selection the turn emits
nothing and mutates nothing. -/
def selectionStep (menu : List MenuItem) (s : Session) (st : OrderStore) (cleaned : String) :
    StepResult :=
  if s.awaitingItemSelection then
    let selectedItems := (splitComma cleaned.data []).filterMap parseIntChars
    let validItems := selectedItems.filterMap (fun n =>
      if n = 0 then none else (menu.get? (n - 1)).map MenuItem.mid)
    if validItems.length > 0 then
      { session := { s with currentOrder := validItems, awaitingItemSelection := false }
        store := st
        events := [Event.botMessage (addedMessage menu validItems),
                   Event.botMessage optionsMessage] }
    else
      { session := s, store := st
        events := [Event.botMessage invalidSelectionMessage, Event.botMessage optionsMessage] }
  else
    { session := s, store := st, events := [] }

/-- One `user-message` turn (lines 218-512): trim, validate against the
pattern (on failure emit the validation error and the options menu and
change nothing), then dispatch on the reserved commands with everything
else falling to the selection branch. -/
def step (menu : List MenuItem) (gw : GatewayInit) (s : Session) (st : OrderStore)
    (input : String) : StepResult :=
  let cleaned := trimInput input
  if matchesInputPattern cleaned = false then
    { session := s, store := st
      events := [Event.botMessage invalidInputMessage, Event.botMessage optionsMessage] }
  else if cleaned = "1" then browseStep menu s st
  else if cleaned = "99" then checkoutStep menu gw s st
  else if cleaned = "98" then historyStep s st
  else if cleaned = "97" then reviewStep menu s st
  else if cleaned = "0" then cancelStep s st
  else selectionStep menu s st cleaned

/-- Session and store together, for running input scripts. -/
structure SysState where
  session : Session
  store : OrderStore
deriving DecidableEq

/-- Run a list of `user-message` inputs from one connection in order. -/
def runScript (menu : List MenuItem) (gw : GatewayInit) (σ : SysState) :
    List String → SysState
  | [] => σ
  | input :: rest =>
    let r := step menu gw σ.session σ.store input
    runScript menu gw { session := r.session, store := r.store } rest

/-! ## The `GET /payment/callback` reconciliation handler -/

def errorRedirect : String := "/?payment=error"

def receiptRedirect (ref : String) : String := "/receipt?reference=" ++ ref

/-- Observable outcome of one callback request: the order store afterwards,
the redirect the requester receives (`none` when the handler never sends a
response), and the session token broadcast with `io.emit("clear-session", _)`
if any. -/
structure CallbackResult where
  store : OrderStore
  response : Option String
  broadcast : Option Nat
deriving DecidableEq

/-- Lines 516-544.  `verify` throwing is caught and answered with the
generic error redirect.  On a verified `"success"`, `findOneAndUpdate`
(filtered on `paymentReference` alone) sets the first matching order to
`paid`; the receipt redirect is sent, then `clear-session` is broadcast
with the `sessionId` of the order — line 535 sends the redirect before line 538
reads `order.sessionId`, so when no order matched, the receipt redirect
has already been sent when the null dereference throws, and the error redirect of the `catch` cannot replace it.  On a verified non-`"success"` status
the `if` falls through: nothing is written and no response is ever sent. -/
def paymentCallback (verify : VerifyResult) (ref : String) (st : OrderStore) :
    CallbackResult :=
  match verify with
  | VerifyResult.err => { store := st, response := some errorRedirect, broadcast := none }
  | VerifyResult.ok status =>
    if status = "success" then
      match setPaidByRef st.orders ref with
      | (some o', orders') =>
        { store := { st with orders := orders' }
          response := some (receiptRedirect ref)
          broadcast := some o'.sessionId }
      | (none, _) =>
        { store := st, response := some (receiptRedirect ref), broadcast := none }
    else
      { store := st, response := none, broadcast := none }

/-! ## Sample data: the seeded menu of `initializeMenu` -/

def sampleMenu : List MenuItem :=
  [ { mid := 1, name := "Jollof Rice", price := 1500, description := "Classic Nigerian Jollof" },
    { mid := 2, name := "Pounded Yam", price := 2000, description := "With Egusi Soup" },
    { mid := 3, name := "Chicken Suya", price := 1200, description := "Spicy grilled chicken" },
    { mid := 4, name := "Chapman Cocktail", price := 800, description := "Signature drink" } ]

/-- A gateway that always initializes successfully. -/
def okGateway : GatewayInit := fun _ _ => InitResult.ok ("https://paystack.example/authorize")

/-- The state of a fresh connection: regenerated session, empty cart, empty
order collection. -/
def initialState : SysState :=
  { session := { sessionId := 7, currentOrder := [], awaitingItemSelection := false }
    store := { orders := [], nextOid := 1 } }

/-- A pending order of session 7 awaiting its payment callback. -/
def pendingOrderSample : Order :=
  { oid := 1
    sessionId := 7
    items := [{ menuItemId := 2, name := "Pounded Yam", price := 2000, quantity := 1 }]
    total := 2000
    status := OrderStatus.pending
    paymentReference := some ("order_1") }

/-- An order carrying a payment reference whose status is `cancelled`
(hypothetical store content: the code deletes pending orders on cancel
instead of marking them cancelled, so this document exercises the update
filter, not a reachable state). -/
def cancelledOrderSample : Order :=
  { oid := 5
    sessionId := 9
    items := []
    total := 1500
    status := OrderStatus.cancelled
    paymentReference := some ("order_5") }

/-- A pending order belonging to session 42 — some other customer of the
restaurant. -/
def foreignPendingOrder : Order :=
  { oid := 3
    sessionId := 42
    items := [{ menuItemId := 3, name := "Chicken Suya", price := 1200, quantity := 1 }]
    total := 1200
    status := OrderStatus.pending
    paymentReference := none }

/-! ## Helper lemmas -/

/-- The `_id`s of the documents `$in`-fetched for a cart are the catalog
`_id`s filtered by cart membership. -/
theorem map_mid_findMenuByIds (menu : List MenuItem) (cart : List Nat) :
    (findMenuByIds menu cart).map MenuItem.mid
      = (menu.map MenuItem.mid).filter (fun x => decide (x ∈ cart)) := by
  induction menu with
  | nil => rfl
  | cons m rest ih =>
    by_cases h : m.mid ∈ cart <;>
      simp [findMenuByIds, List.filter_cons, h] <;>
      simpa [findMenuByIds] using ih

/-- A document fetched for the cart is a catalog document. -/
theorem mem_menu_of_mem_findMenuByIds {menu : List MenuItem} {cart : List Nat}
    {m : MenuItem} (hm : m ∈ findMenuByIds menu cart) : m ∈ menu :=
  List.mem_of_mem_filter hm

/-- With distinct catalog ids, a duplicate-free cart covered by the catalog
is a permutation of the filtered catalog ids. -/
theorem filter_mem_perm {ids cart : List Nat} (hids : ids.Nodup) (hcart : cart.Nodup)
    (hcov : ∀ i ∈ cart, i ∈ ids) :
    (ids.filter (fun x => decide (x ∈ cart))).Perm cart := by
  refine (List.perm_ext_iff_of_nodup (hids.filter _) hcart).2 ?_
  intro a
  simp only [List.mem_filter, decide_eq_true_eq]
  exact ⟨fun h => h.2, fun h => ⟨hcov a h, h⟩⟩

/-- When some cart entry is absent from the catalog, strictly fewer
documents are fetched than the cart has entries. -/
theorem filter_mem_length_lt_of_missing {ids cart : List Nat} (hids : ids.Nodup)
    {i : Nat} (hi : i ∈ cart) (hmiss : i ∉ ids) :
    (ids.filter (fun x => decide (x ∈ cart))).length < cart.length := by
  set l := ids.filter (fun x => decide (x ∈ cart)) with hl
  have hnd : l.Nodup := hids.filter _
  have hcard : l.length = l.toFinset.card := (List.toFinset_card_of_nodup hnd).symm
  have hsub : l.toFinset ⊆ cart.toFinset.erase i := by
    intro x hx
    rw [List.mem_toFinset] at hx
    rw [hl, List.mem_filter, decide_eq_true_eq] at hx
    refine Finset.mem_erase.2 ⟨?_, List.mem_toFinset.2 hx.2⟩
    intro hxi; exact hmiss (hxi ▸ hx.1)
  have h1 : l.toFinset.card ≤ (cart.toFinset.erase i).card := Finset.card_le_card hsub
  have h2 : (cart.toFinset.erase i).card = cart.toFinset.card - 1 :=
    Finset.card_erase_of_mem (List.mem_toFinset.2 hi)
  have h3 : cart.toFinset.card ≤ cart.length := List.toFinset_card_le cart
  have h4 : 0 < cart.toFinset.card := Finset.card_pos.2 ⟨i, List.mem_toFinset.2 hi⟩
  omega

/-- When the cart repeats an id, strictly fewer documents are fetched than
the cart has entries, even with every cart id present in the catalog. -/
theorem filter_mem_length_lt_of_dup {ids cart : List Nat} (hids : ids.Nodup)
    (hdup : ¬ cart.Nodup) (hcov : ∀ i ∈ cart, i ∈ ids) :
    (ids.filter (fun x => decide (x ∈ cart))).length < cart.length := by
  have hperm : (ids.filter (fun x => decide (x ∈ cart))).Perm cart.dedup := by
    refine (List.perm_ext_iff_of_nodup (hids.filter _) cart.nodup_dedup).2 ?_
    intro a
    simp only [List.mem_filter, decide_eq_true_eq, List.mem_dedup]
    exact ⟨fun h => h.2, fun h => ⟨hcov a h, h⟩⟩
  have hlen := hperm.length_eq
  have hsub : cart.dedup.Sublist cart := List.dedup_sublist cart
  have hle : cart.dedup.length ≤ cart.length := hsub.length_le
  have hne : cart.dedup.length ≠ cart.length := by
    intro heq
    exact hdup (List.dedup_eq_self.1 (hsub.eq_of_length heq))
  omega

/-- `activeOrder.save()` after `findOneAndUpdate`-free creation: mapping the
conditional payment-reference update over a collection whose existing
documents all have `_id`s different from the fresh one only rewrites the
appended document. -/
theorem setRef_append (orders : List Order) (o : Order) (r : String) (k : Nat)
    (hk : o.oid = k) (hfresh : ∀ p ∈ orders, p.oid ≠ k) :
    (orders ++ [o]).map (fun p =>
        if p.oid = k then { p with paymentReference := some r } else p)
      = orders ++ [{ o with paymentReference := some r }] := by
  rw [List.map_append]
  congr 1
  · conv_rhs => rw [← List.map_id orders]
    exact List.map_congr_left (fun p hp => by simp [hfresh p hp])
  · simp [hk]

/-- The literal input `"99"` dispatches to the checkout case. -/
theorem step_checkout (menu : List MenuItem) (gw : GatewayInit) (s : Session)
    (st : OrderStore) :
    step menu gw s st ("99") = checkoutStep menu gw s st := by
  simp [step, show trimInput ("99") = "99" from rfl,
        show matchesInputPattern ("99") = true from rfl]

/-- Checkout with a non-empty cart aborts on the count mismatch between the
fetched documents and the cart. -/
theorem checkoutStep_abort {menu : List MenuItem} {gw : GatewayInit} {s : Session}
    {st : OrderStore}
    (hne : s.currentOrder ≠ [])
    (hlt : (findMenuByIds menu s.currentOrder).length < s.currentOrder.length) :
    checkoutStep menu gw s st
      = { session := { s with currentOrder := [] }
          store := st
          events := [Event.botMessage itemsUnavailableMessage,
                     Event.botMessage optionsMessage] } := by
  have hpos : s.currentOrder.length > 0 := List.length_pos.2 hne
  have hneq : (findMenuByIds menu s.currentOrder).length ≠ s.currentOrder.length :=
    Nat.ne_of_lt hlt
  simp [checkoutStep, hpos, hneq]

/-- `findOneAndUpdate` on a collection with no document carrying the
reference matches nothing and rewrites nothing. -/
theorem setPaidByRef_none (orders : List Order) (ref : String)
    (h : ∀ o ∈ orders, o.paymentReference ≠ some ref) :
    setPaidByRef orders ref = (none, orders) := by
  induction orders with
  | nil => rfl
  | cons o rest ih =>
    have ho : o.paymentReference ≠ some ref := h o (List.mem_cons_self o rest)
    rw [setPaidByRef, if_neg ho, ih (fun p hp => h p (List.mem_cons_of_mem o hp))]

/-- `findOneAndUpdate` rewrites the first document carrying the reference —
whatever its current status — to `paid`, and returns it. -/
theorem setPaidByRef_append (pre post : List Order) (o : Order) (ref : String)
    (hpre : ∀ p ∈ pre, p.paymentReference ≠ some ref)
    (ho : o.paymentReference = some ref) :
    setPaidByRef (pre ++ o :: post) ref
      = (some { o with status := OrderStatus.paid },
         pre ++ { o with status := OrderStatus.paid } :: post) := by
  induction pre with
  | nil => simp [setPaidByRef, ho]
  | cons p rest ih =>
    have hp : p.paymentReference ≠ some ref := hpre p (List.mem_cons_self p rest)
    rw [List.cons_append, setPaidByRef, if_neg hp,
        ih (fun q hq => hpre q (List.mem_cons_of_mem p hq))]
    rfl

/-- Applying the `findOneAndUpdate` rewrite twice equals applying it once:
the update leaves the payment reference in place, so the second pass
matches the same document and rewrites `paid` to `paid`. -/
theorem setPaidByRef_idem (orders : List Order) (ref : String) :
    setPaidByRef (setPaidByRef orders ref).2 ref = setPaidByRef orders ref := by
  induction orders with
  | nil => rfl
  | cons o rest ih =>
    by_cases h : o.paymentReference = some ref
    · have h' : ({ o with status := OrderStatus.paid } : Order).paymentReference
          = some ref := h
      simp only [setPaidByRef, if_pos h, if_pos h']
    · simp only [setPaidByRef, if_neg h]
      rw [ih]

/-! ## Claim theorems -/

/-- Claim C1 — refuted; the run below evaluates the code on a failing
input.  The claim states that at most one pending order exists per session
token after any interleaving of browse, selection, checkout and cancel,
and in particular that checkout with a non-empty cart never creates a
second pending order.  But case `"1"` never deletes pending orders (the
`showMenu` helper that would is dead code) and the non-empty-cart branch
of case `"99"` creates a new order unconditionally, so the interleaving
browse, select item 2, checkout (gateway succeeds, order stays pending
until the callback), browse, select item 2, checkout leaves session 7
with two pending orders. -/
theorem C1_checkout_creates_second_pending_order :
    countPending (runScript sampleMenu okGateway initialState
      ["1", "2", "99", "1", "2", "99"]).store 7 = 2 := by
  decide

/-- Claim C2, counterexample: a callback whose `verify` returns the
well-formed non-success status `"failed"` receives no response at all —
in particular not the generic failure redirect the claim promises. -/
theorem C2_nonsuccess_verify_sends_no_redirect :
    (paymentCallback (VerifyResult.ok ("failed")) ("order_1")
        { orders := [pendingOrderSample], nextOid := 2 }).response = none ∧
    (paymentCallback (VerifyResult.ok ("failed")) ("order_1")
        { orders := [pendingOrderSample], nextOid := 2 }).response ≠ some errorRedirect := by
  decide

/-- Claim C2 as amended: whenever `verify` does not yield the status
`"success"`, the Order Store is unchanged and no clear-session broadcast
fires; the caller receives the generic failure redirect exactly when
`verify` fails by throwing (network error, non-2xx, malformed body), and
receives no response at all when `verify` returns a well-formed
non-success status. -/
theorem C2_nonsuccess_verify_no_store_change (st : OrderStore) (ref : String)
    (v : VerifyResult) (h : v ≠ VerifyResult.ok ("success")) :
    (paymentCallback v ref st).store = st ∧
    (paymentCallback v ref st).broadcast = none ∧
    (paymentCallback v ref st).response
      = (match v with
         | VerifyResult.err => some errorRedirect
         | VerifyResult.ok _ => none) := by
  cases v with
  | err => exact ⟨rfl, rfl, rfl⟩
  | ok s =>
    have hs : s ≠ "success" := fun e => h (by rw [e])
    simp [paymentCallback, hs]

/-- Witness for C2: the amended theorem applied to a verified
`"abandoned"` status against the store holding the pending sample order. -/
theorem C2_nonsuccess_verify_no_store_change_witness :
    (VerifyResult.ok ("abandoned") ≠ VerifyResult.ok ("success")) ∧
    ((paymentCallback (VerifyResult.ok ("abandoned")) ("order_1")
        { orders := [pendingOrderSample], nextOid := 2 }).store
        = { orders := [pendingOrderSample], nextOid := 2 } ∧
     (paymentCallback (VerifyResult.ok ("abandoned")) ("order_1")
        { orders := [pendingOrderSample], nextOid := 2 }).broadcast = none ∧
     (paymentCallback (VerifyResult.ok ("abandoned")) ("order_1")
        { orders := [pendingOrderSample], nextOid := 2 }).response = none) :=
  ⟨by decide, C2_nonsuccess_verify_no_store_change
    { orders := [pendingOrderSample], nextOid := 2 } ("order_1")
    (VerifyResult.ok ("abandoned")) (by decide)⟩

/-- Claim C3, counterexample: two successive verified-success callbacks
for the same reference each fire the clear-session broadcast — the second
callback finds the order already `paid` (the update filter has no status
condition), still matches it, and broadcasts again, contradicting "at most
once per distinct pending-to-paid transition". -/
theorem C3_broadcast_fires_on_every_success_callback :
    (paymentCallback (VerifyResult.ok ("success")) ("order_1")
        { orders := [pendingOrderSample], nextOid := 2 }).broadcast = some 7 ∧
    (paymentCallback (VerifyResult.ok ("success")) ("order_1")
        (paymentCallback (VerifyResult.ok ("success")) ("order_1")
          { orders := [pendingOrderSample], nextOid := 2 }).store).broadcast = some 7 := by
  decide

/-- Claim C3 as amended: duplicate verified-success callbacks are
idempotent on the Order Store — the order reaches `paid` after the first
callback and the repeat is a store-level no-op, not an error — but the
repeat reproduces the whole observable outcome of the first callback,
including the clear-session broadcast, which therefore fires once per
successful matched callback rather than once per transition. -/
theorem C3_duplicate_callback_idempotent_on_store (st : OrderStore) (ref : String) :
    paymentCallback (VerifyResult.ok ("success")) ref
        (paymentCallback (VerifyResult.ok ("success")) ref st).store
      = paymentCallback (VerifyResult.ok ("success")) ref st := by
  have hidem := setPaidByRef_idem st.orders ref
  rcases h : setPaidByRef st.orders ref with ⟨fst, snd⟩
  rw [h] at hidem
  cases fst with
  | none => simp [paymentCallback, h]
  | some o' => simp [paymentCallback, h, hidem]

/-- Claim C4, counterexample: a verified-success callback whose reference
matches no order mutates nothing and broadcasts nothing, but the response
it sends is the receipt redirect issued on line 535 before the null
dereference — not the generic error redirect the claim promises. -/
theorem C4_unknown_reference_receipt_redirect :
    (paymentCallback (VerifyResult.ok ("success")) ("ghost")
        { orders := [], nextOid := 1 }).response = some (receiptRedirect ("ghost")) ∧
    (paymentCallback (VerifyResult.ok ("success")) ("ghost")
        { orders := [], nextOid := 1 }).response ≠ some errorRedirect ∧
    (paymentCallback (VerifyResult.ok ("success")) ("ghost")
        { orders := [], nextOid := 1 }).store.orders = [] ∧
    (paymentCallback (VerifyResult.ok ("success")) ("ghost")
        { orders := [], nextOid := 1 }).broadcast = none := by
  decide

/-- Claim C4 as amended: for a reference matching no order, the handler
never mutates the store and never broadcasts; the response is the generic
error redirect when `verify` throws (the 404 Paystack answers for an
unknown reference), the receipt redirect when `verify` reports success,
and nothing when `verify` reports a non-success status. -/
theorem C4_unknown_reference_no_mutation_no_broadcast (st : OrderStore) (ref : String)
    (v : VerifyResult) (h : ∀ o ∈ st.orders, o.paymentReference ≠ some ref) :
    (paymentCallback v ref st).store = st ∧
    (paymentCallback v ref st).broadcast = none ∧
    (paymentCallback v ref st).response
      = (match v with
         | VerifyResult.err => some errorRedirect
         | VerifyResult.ok s =>
           if s = "success" then some (receiptRedirect ref) else none) := by
  cases v with
  | err => exact ⟨rfl, rfl, rfl⟩
  | ok s =>
    by_cases hs : s = "success"
    · subst hs
      simp [paymentCallback, setPaidByRef_none st.orders ref h]
    · simp [paymentCallback, hs]

/-- Witness for C4: the amended theorem applied to a thrown `verify`
(the 404 outcome) with a reference no stored order carries. -/
theorem C4_unknown_reference_no_mutation_no_broadcast_witness :
    (∀ o ∈ ({ orders := [foreignPendingOrder], nextOid := 4 } : OrderStore).orders,
        o.paymentReference ≠ some ("ghost2")) ∧
    ((paymentCallback VerifyResult.err ("ghost2")
        { orders := [foreignPendingOrder], nextOid := 4 }).store
        = { orders := [foreignPendingOrder], nextOid := 4 } ∧
     (paymentCallback VerifyResult.err ("ghost2")
        { orders := [foreignPendingOrder], nextOid := 4 }).broadcast = none ∧
     (paymentCallback VerifyResult.err ("ghost2")
        { orders := [foreignPendingOrder], nextOid := 4 }).response = some errorRedirect) :=
  ⟨by decide, C4_unknown_reference_no_mutation_no_broadcast
    { orders := [foreignPendingOrder], nextOid := 4 } ("ghost2")
    VerifyResult.err (by decide)⟩

/-- Claim C5, counterexample: the reconciliation update is not a
compare-and-set keyed on the current status — applied to a store whose
matching order is `cancelled`, it blindly rewrites the status to `paid`. -/
theorem C5_reconciliation_overwrites_cancelled :
    cancelledOrderSample.status = OrderStatus.cancelled ∧
    (paymentCallback (VerifyResult.ok ("success")) ("order_5")
        { orders := [cancelledOrderSample], nextOid := 6 }).store.orders
      = [{ cancelledOrderSample with status := OrderStatus.paid }] := by
  decide

/-- Claim C5 as amended: the reconciliation update is keyed on
`paymentReference` alone — the first order carrying the reference has its
status overwritten to `paid` whatever that status currently is, and the
clear-session broadcast carries its session token.  (A cancel racing with
the callback deletes the pending order outright rather than marking it
`cancelled`, so no stored order is ever simultaneously cancelled and paid
— but not because the update checks the status.) -/
theorem C5_update_keyed_on_reference_only (pre post : List Order) (o : Order)
    (n : Nat) (ref : String)
    (hpre : ∀ p ∈ pre, p.paymentReference ≠ some ref)
    (ho : o.paymentReference = some ref) :
    (paymentCallback (VerifyResult.ok ("success")) ref
        { orders := pre ++ o :: post, nextOid := n }).store.orders
      = pre ++ { o with status := OrderStatus.paid } :: post ∧
    (paymentCallback (VerifyResult.ok ("success")) ref
        { orders := pre ++ o :: post, nextOid := n }).broadcast
      = some o.sessionId := by
  have h := setPaidByRef_append pre post o ref hpre ho
  simp [paymentCallback, h]

/-- Witness for C5: the amended theorem applied to a store holding an
unrelated pending order followed by the cancelled order carrying the
reference. -/
theorem C5_update_keyed_on_reference_only_witness :
    (∀ p ∈ [foreignPendingOrder], p.paymentReference ≠ some ("order_5")) ∧
    cancelledOrderSample.paymentReference = some ("order_5") ∧
    ((paymentCallback (VerifyResult.ok ("success")) ("order_5")
        { orders := [foreignPendingOrder] ++ cancelledOrderSample :: []
          nextOid := 6 }).store.orders
      = [foreignPendingOrder] ++ { cancelledOrderSample with status := OrderStatus.paid } :: [] ∧
     (paymentCallback (VerifyResult.ok ("success")) ("order_5")
        { orders := [foreignPendingOrder] ++ cancelledOrderSample :: []
          nextOid := 6 }).broadcast
      = some cancelledOrderSample.sessionId) :=
  ⟨by decide, by decide,
   C5_update_keyed_on_reference_only [foreignPendingOrder] [] cancelledOrderSample 6
     ("order_5") (by decide) (by decide)⟩

/-- Claim C6 — refuted; this theorem evaluates the compensating delete on
the failing input.  The claim states the delete is safe when the order
reference is unavailable (creation itself failed): it should delete
nothing, and never an order other than the just-created one.  But with
`activeOrder` undefined, Mongoose strips the `undefined` `_id` key and
`deleteOne({ status: "pending" })` removes the first pending order in the
collection — here an order belonging to session 42, some other customer. -/
theorem C6_compensating_delete_removes_foreign_order :
    foreignPendingOrder.sessionId = 42 ∧
    foreignPendingOrder.status = OrderStatus.pending ∧
    (deleteOneCompensating { orders := [foreignPendingOrder], nextOid := 4 } none).orders
      = [] := by
  decide

/-- Claim C7: checkout (`99`) with a non-empty cart referencing at least
one menu item absent from the catalog emits the items-unavailable error
and the options menu, clears the cart, creates no order (the store is
unchanged), and never calls the gateway `initialize`. -/
theorem C7_missing_item_checkout_aborts (menu : List MenuItem) (gw : GatewayInit)
    (s : Session) (st : OrderStore)
    (hmenu : (menu.map MenuItem.mid).Nodup)
    (hne : s.currentOrder ≠ [])
    (hmiss : ∃ i ∈ s.currentOrder, i ∉ menu.map MenuItem.mid) :
    step menu gw s st ("99")
      = { session := { s with currentOrder := [] }
          store := st
          events := [Event.botMessage itemsUnavailableMessage,
                     Event.botMessage optionsMessage] } ∧
    ∀ ref amt, Event.gatewayInit ref amt ∉ (step menu gw s st ("99")).events := by
  obtain ⟨i, hi, hnotin⟩ := hmiss
  have hlt : (findMenuByIds menu s.currentOrder).length < s.currentOrder.length := by
    rw [← List.length_map (findMenuByIds menu s.currentOrder) MenuItem.mid,
        map_mid_findMenuByIds]
    exact filter_mem_length_lt_of_missing hmenu hi hnotin
  refine ⟨?_, ?_⟩
  · rw [step_checkout, checkoutStep_abort hne hlt]
  · intro ref amt
    rw [step_checkout, checkoutStep_abort hne hlt]
    simp

/-- Witness for C7: a cart holding the unknown id 99 against the seeded
menu. -/
theorem C7_missing_item_checkout_aborts_witness :
    ((sampleMenu.map MenuItem.mid).Nodup ∧
     ([99] : List Nat) ≠ [] ∧
     (∃ i ∈ ([99] : List Nat), i ∉ sampleMenu.map MenuItem.mid)) ∧
    (step sampleMenu okGateway
        { sessionId := 7, currentOrder := [99], awaitingItemSelection := false }
        { orders := [], nextOid := 1 } ("99")
      = { session := { sessionId := 7, currentOrder := [], awaitingItemSelection := false }
          store := { orders := [], nextOid := 1 }
          events := [Event.botMessage itemsUnavailableMessage,
                     Event.botMessage optionsMessage] } ∧
     ∀ ref amt, Event.gatewayInit ref amt
        ∉ (step sampleMenu okGateway
            { sessionId := 7, currentOrder := [99], awaitingItemSelection := false }
            { orders := [], nextOid := 1 } ("99")).events) :=
  ⟨⟨by decide, by decide, by decide⟩,
   C7_missing_item_checkout_aborts sampleMenu okGateway
     { sessionId := 7, currentOrder := [99], awaitingItemSelection := false }
     { orders := [], nextOid := 1 } (by decide) (by decide) (by decide)⟩

/-- Claim C8: checkout from a non-empty cart of distinct, catalogued ids
creates a pending order whose total is the sum of the snapshotted prices
of exactly the selected items, invokes the gateway with amount equal to
the total times 100 and the reference `order_` followed by the order id,
and on a well-formed gateway response persists the payment reference on
the order and emits the redirect with the returned authorization URL
(clearing the cart). -/
theorem C8_checkout_success_flow (menu : List MenuItem) (gw : GatewayInit) (s : Session)
    (st : OrderStore) (url : String)
    (hmenu : (menu.map MenuItem.mid).Nodup)
    (hprices : ∀ m ∈ menu, 100 ≤ m.price)
    (hne : s.currentOrder ≠ [])
    (hnd : s.currentOrder.Nodup)
    (hcov : ∀ i ∈ s.currentOrder, i ∈ menu.map MenuItem.mid)
    (hfresh : ∀ o ∈ st.orders, o.oid ≠ st.nextOid)
    (hgw : gw ("order_" ++ toString st.nextOid)
        (((findMenuByIds menu s.currentOrder).map MenuItem.price).sum * 100)
        = InitResult.ok url) :
    ∃ order : Order,
      (step menu gw s st ("99")).store.orders = st.orders ++ [order] ∧
      order.status = OrderStatus.pending ∧
      order.total = (order.items.map OrderItem.price).sum ∧
      (order.items.map OrderItem.menuItemId).Perm s.currentOrder ∧
      (∀ it ∈ order.items, ∃ m ∈ menu,
        it.menuItemId = m.mid ∧ it.name = m.name ∧ it.price = m.price ∧ it.quantity = 1) ∧
      order.paymentReference = some ("order_" ++ toString st.nextOid) ∧
      (step menu gw s st ("99")).events
        = [Event.gatewayInit ("order_" ++ toString st.nextOid) (order.total * 100),
           Event.redirect url] ∧
      (step menu gw s st ("99")).session.currentOrder = [] := by
  have hstep : step menu gw s st ("99") = checkoutStep menu gw s st :=
    step_checkout menu gw s st
  set items := findMenuByIds menu s.currentOrder with hitems
  have hmapmid : items.map MenuItem.mid
      = (menu.map MenuItem.mid).filter (fun x => decide (x ∈ s.currentOrder)) :=
    map_mid_findMenuByIds menu s.currentOrder
  have hperm : (items.map MenuItem.mid).Perm s.currentOrder := by
    rw [hmapmid]; exact filter_mem_perm hmenu hnd hcov
  have hlen : items.length = s.currentOrder.length := by
    have := hperm.length_eq
    simpa using this
  have hpos : s.currentOrder.length > 0 := List.length_pos.2 hne
  have hitems_ne : items ≠ [] := by
    intro h
    apply hne
    have : ([] : List Nat).Perm s.currentOrder := by simpa [h] using hperm
    exact (List.perm_nil.1 this.symm)
  have htot : 100 ≤ (items.map MenuItem.price).sum := by
    obtain ⟨m, hm⟩ := List.exists_mem_of_ne_nil items hitems_ne
    have hmmenu : m ∈ menu := mem_menu_of_mem_findMenuByIds (hitems ▸ hm)
    calc 100 ≤ m.price := hprices m hmmenu
      _ ≤ (items.map MenuItem.price).sum :=
        List.single_le_sum (fun x _ => Nat.zero_le x) _ (List.mem_map_of_mem _ hm)
  set newOrder : Order :=
    { oid := st.nextOid
      sessionId := s.sessionId
      items := items.map (fun m =>
        { menuItemId := m.mid, name := m.name, price := m.price, quantity := 1 })
      total := (items.map MenuItem.price).sum
      status := OrderStatus.pending
      paymentReference := none } with hnewOrder
  have hred : checkoutStep menu gw s st
      = { session := { s with currentOrder := [] }
          store := { orders := st.orders ++ [{ newOrder with
                        paymentReference := some ("order_" ++ toString st.nextOid) }]
                     nextOid := st.nextOid + 1 }
          events := [Event.gatewayInit ("order_" ++ toString st.nextOid)
                       ((items.map MenuItem.price).sum * 100),
                     Event.redirect url] } := by
    rw [checkoutStep]
    rw [if_pos hpos]
    rw [← hitems]
    rw [if_neg (by rw [hlen]; exact fun h => h rfl)]
    rw [initiatePayment]
    rw [if_neg (Nat.not_lt.2 htot)]
    simp only [hgw]
    rw [setPaymentReference]
    simp only []
    rw [setRef_append st.orders newOrder ("order_" ++ toString st.nextOid) st.nextOid
        rfl hfresh]
  refine ⟨{ newOrder with paymentReference := some ("order_" ++ toString st.nextOid) },
    ?_, rfl, ?_, ?_, ?_, rfl, ?_, ?_⟩
  · rw [hstep, hred]
  · show (items.map MenuItem.price).sum
        = ((items.map (fun m =>
            ({ menuItemId := m.mid, name := m.name, price := m.price,
               quantity := 1 } : OrderItem))).map OrderItem.price).sum
    rw [List.map_map]
    rfl
  · show ((items.map (fun m =>
        ({ menuItemId := m.mid, name := m.name, price := m.price,
           quantity := 1 } : OrderItem))).map OrderItem.menuItemId).Perm s.currentOrder
    rw [List.map_map]
    exact hperm
  · intro it hit
    have hit' : it ∈ items.map (fun m =>
        ({ menuItemId := m.mid, name := m.name, price := m.price,
           quantity := 1 } : OrderItem)) := hit
    rw [List.mem_map] at hit'
    obtain ⟨m, hm, rfl⟩ := hit'
    exact ⟨m, mem_menu_of_mem_findMenuByIds (hitems ▸ hm), rfl, rfl, rfl, rfl⟩
  · rw [hstep, hred]
  · rw [hstep, hred]

/-- Witness for C8: the cart `[1, 3]` (Jollof Rice and Chicken Suya,
total 2700) against the seeded menu, fresh store, always-succeeding
gateway. -/
theorem C8_checkout_success_flow_witness :
    ((sampleMenu.map MenuItem.mid).Nodup ∧
     (∀ m ∈ sampleMenu, 100 ≤ m.price) ∧
     ([1, 3] : List Nat) ≠ [] ∧
     ([1, 3] : List Nat).Nodup ∧
     (∀ i ∈ ([1, 3] : List Nat), i ∈ sampleMenu.map MenuItem.mid) ∧
     (∀ o ∈ ({ orders := [], nextOid := 1 } : OrderStore).orders, o.oid ≠ 1) ∧
     okGateway ("order_" ++ toString (1 : Nat))
        (((findMenuByIds sampleMenu [1, 3]).map MenuItem.price).sum * 100)
        = InitResult.ok ("https://paystack.example/authorize")) ∧
    (∃ order : Order,
      (step sampleMenu okGateway
          { sessionId := 7, currentOrder := [1, 3], awaitingItemSelection := false }
          { orders := [], nextOid := 1 } ("99")).store.orders = [] ++ [order] ∧
      order.status = OrderStatus.pending ∧
      order.total = (order.items.map OrderItem.price).sum ∧
      (order.items.map OrderItem.menuItemId).Perm [1, 3] ∧
      (∀ it ∈ order.items, ∃ m ∈ sampleMenu,
        it.menuItemId = m.mid ∧ it.name = m.name ∧ it.price = m.price ∧ it.quantity = 1) ∧
      order.paymentReference = some ("order_" ++ toString (1 : Nat)) ∧
      (step sampleMenu okGateway
          { sessionId := 7, currentOrder := [1, 3], awaitingItemSelection := false }
          { orders := [], nextOid := 1 } ("99")).events
        = [Event.gatewayInit ("order_" ++ toString (1 : Nat)) (order.total * 100),
           Event.redirect ("https://paystack.example/authorize")] ∧
      (step sampleMenu okGateway
          { sessionId := 7, currentOrder := [1, 3], awaitingItemSelection := false }
          { orders := [], nextOid := 1 } ("99")).session.currentOrder = []) :=
  ⟨⟨by decide, by decide, by decide, by decide, by decide, by decide, rfl⟩,
   C8_checkout_success_flow sampleMenu okGateway
     { sessionId := 7, currentOrder := [1, 3], awaitingItemSelection := false }
     { orders := [], nextOid := 1 } ("https://paystack.example/authorize")
     (by decide) (by decide) (by decide) (by decide) (by decide) (by decide) rfl⟩

/-- Claim C9: an inbound message that fails the validation pattern after
trimming yields exactly the validation-error message followed by the
options menu, with the session (cart and awaiting flag) and the order
store untouched. -/
theorem C9_invalid_input_no_mutation (menu : List MenuItem) (gw : GatewayInit)
    (s : Session) (st : OrderStore) (input : String)
    (h : matchesInputPattern (trimInput input) = false) :
    step menu gw s st input
      = { session := s, store := st
          events := [Event.botMessage invalidInputMessage,
                     Event.botMessage optionsMessage] } := by
  simp [step, h]

/-- Witness for C9: the non-numeric input `"hello"`. -/
theorem C9_invalid_input_no_mutation_witness :
    matchesInputPattern (trimInput ("hello")) = false ∧
    step sampleMenu okGateway
        { sessionId := 7, currentOrder := [], awaitingItemSelection := false }
        { orders := [], nextOid := 1 } ("hello")
      = { session := { sessionId := 7, currentOrder := [], awaitingItemSelection := false }
          store := { orders := [], nextOid := 1 }
          events := [Event.botMessage invalidInputMessage,
                     Event.botMessage optionsMessage] } :=
  ⟨by decide,
   C9_invalid_input_no_mutation sampleMenu okGateway
     { sessionId := 7, currentOrder := [], awaitingItemSelection := false }
     { orders := [], nextOid := 1 } ("hello") (by decide)⟩

/-- Claim C10: a cart repeating a menu id (for example the selection
`2,2`) makes checkout abort with the items-no-longer-available error and
clear the cart without creating an order, even though every referenced
item exists — `$in` fetches each matching document once, so the count of
fetched documents is below the cart length. -/
theorem C10_duplicate_cart_ids_abort (menu : List MenuItem) (gw : GatewayInit)
    (s : Session) (st : OrderStore)
    (hmenu : (menu.map MenuItem.mid).Nodup)
    (hdup : ¬ s.currentOrder.Nodup)
    (hcov : ∀ i ∈ s.currentOrder, i ∈ menu.map MenuItem.mid) :
    step menu gw s st ("99")
      = { session := { s with currentOrder := [] }
          store := st
          events := [Event.botMessage itemsUnavailableMessage,
                     Event.botMessage optionsMessage] } := by
  have hne : s.currentOrder ≠ [] := by
    intro h
    exact hdup (h ▸ List.nodup_nil)
  have hlt : (findMenuByIds menu s.currentOrder).length < s.currentOrder.length := by
    rw [← List.length_map (findMenuByIds menu s.currentOrder) MenuItem.mid,
        map_mid_findMenuByIds]
    exact filter_mem_length_lt_of_dup hmenu hdup hcov
  rw [step_checkout, checkoutStep_abort hne hlt]

/-- Witness for C10: the cart `[2, 2]` — item 2 selected twice — against
the seeded menu, in which item 2 exists. -/
theorem C10_duplicate_cart_ids_abort_witness :
    ((sampleMenu.map MenuItem.mid).Nodup ∧
     ¬ ([2, 2] : List Nat).Nodup ∧
     (∀ i ∈ ([2, 2] : List Nat), i ∈ sampleMenu.map MenuItem.mid)) ∧
    step sampleMenu okGateway
        { sessionId := 7, currentOrder := [2, 2], awaitingItemSelection := false }
        { orders := [], nextOid := 1 } ("99")
      = { session := { sessionId := 7, currentOrder := [], awaitingItemSelection := false }
          store := { orders := [], nextOid := 1 }
          events := [Event.botMessage itemsUnavailableMessage,
                     Event.botMessage optionsMessage] } :=
  ⟨⟨by decide, by decide, by decide⟩,
   C10_duplicate_cart_ids_abort sampleMenu okGateway
     { sessionId := 7, currentOrder := [2, 2], awaitingItemSelection := false }
     { orders := [], nextOid := 1 } (by decide) (by decide) (by decide)⟩

end RestaurantBot
